import Mathlib

/-!
# Verification of the createDAO/v2-core deterministic deployment pipeline

This file gives a shallow embedding, in Lean 4, of the parts of the
createDAO/v2-core repository that the specification's claims are about:

* the CREATE2 address predictor and deployer (`scripts/utils/create2.js`),
* the deployment-record store (`scripts/utils/deployment-record.js`),
* the Etherscan verification submitter
  (`scripts/utils/etherscan.js`, `scripts/utils/verification-direct.js`),
* the DAO creation driver (`scripts/deploy/dao.js`),
* the token distribution and timelock role wiring of `contracts/DAOFactory.sol`.

Bytes are modelled as `Nat` values below 256, byte strings as `List Nat`,
EVM addresses as 20-byte lists, and 32-byte words (salts, hashes, roles) as
32-byte lists.  The Keccak-256 hash function (the `keccak256` of the `viem`
library and of Solidity) is implemented in full below, so that every
definition is executable and concrete hash values can be computed by the
kernel.
-/

set_option maxRecDepth 100000

namespace CreateDAO

/-! ## Keccak-256

A faithful, executable implementation of Keccak-256 (the pre-NIST Keccak
with multi-rate padding `0x01`, rate 1088 bits, 256-bit output), which is
the hash used by the EVM, by Solidity's `keccak256` and by viem's
`keccak256`.  The state is a list of 25 lanes, each a 64-bit word stored
as a `Nat` below `2 ^ 64`; lane `x + 5 * y` holds sheet `x`, plane `y`.
-/

/-- All-ones 64-bit mask. -/
def mask64 : Nat := 2 ^ 64 - 1

/-- Left rotation of a 64-bit word.  The input is assumed to be below `2 ^ 64`. -/
def rotl64 (x n : Nat) : Nat :=
  ((x <<< n) ||| (x >>> (64 - n))) &&& mask64

/-- Lane accessor on the 25-lane state (out-of-range reads give `0`). -/
def lane (s : List Nat) (i : Nat) : Nat := s.getD i 0

/-- The θ step of Keccak-f[1600]. -/
def theta (s : List Nat) : List Nat :=
  let c := (List.range 5).map fun x =>
    lane s x ^^^ lane s (x + 5) ^^^ lane s (x + 10) ^^^ lane s (x + 15) ^^^ lane s (x + 20)
  let d := (List.range 5).map fun x =>
    (c.getD ((x + 4) % 5) 0) ^^^ rotl64 (c.getD ((x + 1) % 5) 0) 1
  (List.range 25).map fun i => lane s i ^^^ d.getD (i % 5) 0

/-- Rotation offset `r[x][y]` of the ρ step. -/
def rotOffset (x y : Nat) : Nat :=
  match x, y with
  | 0, 0 => 0
  | 1, 0 => 1
  | 2, 0 => 62
  | 3, 0 => 28
  | 4, 0 => 27
  | 0, 1 => 36
  | 1, 1 => 44
  | 2, 1 => 6
  | 3, 1 => 55
  | 4, 1 => 20
  | 0, 2 => 3
  | 1, 2 => 10
  | 2, 2 => 43
  | 3, 2 => 25
  | 4, 2 => 39
  | 0, 3 => 41
  | 1, 3 => 45
  | 2, 3 => 15
  | 3, 3 => 21
  | 4, 3 => 8
  | 0, 4 => 18
  | 1, 4 => 2
  | 2, 4 => 61
  | 3, 4 => 56
  | _, _ => 14

/-- The combined ρ and π steps: output lane `x' + 5 * y'` is the rotated
input lane `x + 5 * y` with `y = x'` and `x = (x' + 3 * y') % 5`. -/
def rhoPi (s : List Nat) : List Nat :=
  (List.range 25).map fun j =>
    let xp := j % 5
    let yp := j / 5
    let x := (xp + 3 * yp) % 5
    let y := xp
    rotl64 (lane s (x + 5 * y)) (rotOffset x y)

/-- The χ step. -/
def chi (b : List Nat) : List Nat :=
  (List.range 25).map fun j =>
    let x := j % 5
    let y := j / 5
    lane b j ^^^ (((lane b ((x + 1) % 5 + 5 * y)) ^^^ mask64) &&& lane b ((x + 2) % 5 + 5 * y))

/-- Round constants of the ι step (the 24 constants of FIPS 202, written
in decimal). -/
def roundConstants : List Nat :=
  [1, 32898, 9223372036854808714,
   9223372039002292224, 32907, 2147483649,
   9223372039002292353, 9223372036854808585, 138,
   136, 2147516425, 2147483658,
   2147516555, 9223372036854775947, 9223372036854808713,
   9223372036854808579, 9223372036854808578, 9223372036854775936,
   32778, 9223372039002259466, 9223372039002292353,
   9223372036854808704, 2147483649, 9223372039002292232]

/-- One round of Keccak-f[1600]: θ, ρ, π, χ, then ι with constant `rc`. -/
def keccakRound (s : List Nat) (rc : Nat) : List Nat :=
  match chi (rhoPi (theta s)) with
  | [] => []
  | a0 :: rest => (a0 ^^^ rc) :: rest

/-- The full 24-round Keccak-f[1600] permutation. -/
def keccakF (s : List Nat) : List Nat :=
  roundConstants.foldl keccakRound s

/-- Interpret a byte list as a little-endian natural number. -/
def leBytesToNat (bs : List Nat) : Nat :=
  bs.foldr (fun b acc => b + 256 * acc) 0

/-- The `len` low-order bytes of `n`, little-endian. -/
def natToLeBytes : Nat → Nat → List Nat
  | 0, _ => []
  | len + 1, n => n % 256 :: natToLeBytes len (n / 256)

/-- Multi-rate padding `pad10*1` with Keccak's `0x01` domain byte, for
rate 136 bytes: append `0x01`, zeros, and a final `0x80` (a single `0x81`
byte when one padding byte suffices). -/
def pad101 (msg : List Nat) : List Nat :=
  let r := 136
  let padLen := r - msg.length % r
  if padLen = 1 then msg ++ [0x81]
  else msg ++ [0x01] ++ List.replicate (padLen - 2) 0 ++ [0x80]

/-- XOR one 136-byte block into the first 17 lanes of the state. -/
def xorBlock (s block : List Nat) : List Nat :=
  (List.range 25).map fun i =>
    if i < 17 then lane s i ^^^ leBytesToNat ((block.drop (8 * i)).take 8)
    else lane s i

/-- Absorb up to `fuel` 136-byte blocks into the sponge state (structural
recursion on the block count, so that the kernel can evaluate it). -/
def absorbBlocks : Nat → List Nat → List Nat → List Nat
  | 0, s, _ => s
  | fuel + 1, s, bs =>
    if bs.length < 136 then s
    else absorbBlocks fuel (keccakF (xorBlock s (bs.take 136))) (bs.drop 136)

/-- Absorb a padded message (length a positive multiple of 136) block by
block into the sponge state. -/
def absorb (s : List Nat) (bs : List Nat) : List Nat :=
  absorbBlocks (bs.length / 136 + 1) s bs

/-- Keccak-256 of a byte string: pad, absorb at rate 136, and squeeze the
first 32 bytes (lanes 0–3, little-endian). -/
def keccak256 (msg : List Nat) : List Nat :=
  let s := absorb (List.replicate 25 0) (pad101 msg)
  natToLeBytes 8 (lane s 0) ++ natToLeBytes 8 (lane s 1) ++
    natToLeBytes 8 (lane s 2) ++ natToLeBytes 8 (lane s 3)

/-- UTF-8 bytes of an ASCII string (`toBytes` of viem on the label strings
used by the repository, all of which are ASCII). -/
def strBytes (s : String) : List Nat := s.data.map Char.toNat

theorem natToLeBytes_length (len n : Nat) : (natToLeBytes len n).length = len := by
  induction len generalizing n with
  | zero => rfl
  | succ k ih => simp [natToLeBytes, ih]

theorem keccak256_length (msg : List Nat) : (keccak256 msg).length = 32 := by
  simp [keccak256, natToLeBytes_length]

/-! ## Address predictor (`scripts/utils/create2.js`)

Hex strings of the JavaScript code are modelled as the byte lists they
denote; `getAddress` (checksum formatting of a 20-byte address) is the
identity at the byte level.  viem's `encodePacked` validates the width of
each value against its declared type and concatenates the encodings with
no padding and no delimiter; a width mismatch throws, modelled by `none`.
-/

/-- Arachnid's deterministic deployment proxy,
`0x4e59b44847b379578588920cA78FbF26c0B4956C`, as a 20-byte list. -/
def DETERMINISTIC_DEPLOYER : List Nat :=
  [0x4e, 0x59, 0xb4, 0x48, 0x47, 0xb3, 0x79, 0x57, 0x85, 0x88,
   0x92, 0x0c, 0xa7, 0x8f, 0xbf, 0x26, 0xc0, 0xb4, 0x95, 0x6c]

/-- Model of `DEFAULT_FACTORY_SALT = keccak256(toBytes("createDAO_DAOFactory_v1_dev"))`. -/
def DEFAULT_FACTORY_SALT : List Nat :=
  keccak256 (strBytes "createDAO_DAOFactory_v1_dev")

/-- viem `encodePacked(["bytes1", "address", "bytes32", "bytes32"], [b1, addr, w1, w2])`:
validates the widths (1, 20, 32, 32 bytes) and concatenates tightly. -/
def encodePacked1A3232 (b1 : Nat) (addr w1 w2 : List Nat) : Option (List Nat) :=
  if b1 < 256 ∧ addr.length = 20 ∧ w1.length = 32 ∧ w2.length = 32 then
    some ([b1] ++ addr ++ w1 ++ w2)
  else none

/-- Model of `computeCreate2Address(deployerAddress, salt, initCode)` from
`scripts/utils/create2.js`: hash the packed
`0xff ++ deployer ++ salt ++ keccak256(initCode)` and keep the last
40 hex characters (20 bytes) as the address. -/
def computeCreate2Address (deployerAddress salt initCode : List Nat) :
    Option (List Nat) :=
  let initCodeHash := keccak256 initCode
  (encodePacked1A3232 0xff deployerAddress salt initCodeHash).map fun data =>
    let hash := keccak256 data
    hash.drop (hash.length - 20)

/-- The last 20 bytes of a byte string. -/
def last20Bytes (bs : List Nat) : List Nat := bs.drop (bs.length - 20)

/-- The specification's CREATE2 formula (spec §4.1), written from the
spec's words for comparison with `computeCreate2Address`:
`address = last20Bytes(hash(0xff ++ deployerProxyAddress ++ salt ++ hash(initCode)))`
with a 1-byte prefix, 20-byte address, 32-byte salt and 32-byte
init-code hash packed in that order. -/
def create2AddressSpec (deployer salt initCode : List Nat) : List Nat :=
  last20Bytes (keccak256 ([0xff] ++ deployer ++ salt ++ keccak256 initCode))

/-- Claim **C1**. For every 20-byte deployer-proxy address, 32-byte salt and
init code, `computeCreate2Address(deployerAddress, salt, initCode)`
equals the last 20 bytes of
`keccak256(0xff ++ deployerAddress ++ salt ++ keccak256(initCode))`,
returned as an address.  The function is a pure Lean function, hence
deterministic and free of I/O. -/
theorem computeCreate2Address_matches_spec
    (deployerAddress salt initCode : List Nat)
    (hd : deployerAddress.length = 20) (hs : salt.length = 32) :
    computeCreate2Address deployerAddress salt initCode =
      some (create2AddressSpec deployerAddress salt initCode) := by
  simp [computeCreate2Address, create2AddressSpec, encodePacked1A3232,
    last20Bytes, hd, hs, keccak256_length]

/-- Witness for C1 at the deterministic deployer address and the default
factory salt. -/
theorem computeCreate2Address_matches_spec_witness :
    DETERMINISTIC_DEPLOYER.length = 20 ∧ DEFAULT_FACTORY_SALT.length = 32 ∧
    computeCreate2Address DETERMINISTIC_DEPLOYER DEFAULT_FACTORY_SALT [] =
      some (create2AddressSpec DETERMINISTIC_DEPLOYER DEFAULT_FACTORY_SALT []) :=
  ⟨by decide, keccak256_length _,
    computeCreate2Address_matches_spec DETERMINISTIC_DEPLOYER DEFAULT_FACTORY_SALT []
      (by decide) (keccak256_length _)⟩

/-! ## CREATE2 deployer (`scripts/utils/create2.js`)

The chain is modelled by the code it reports per address
(`publicClient.getCode`: `none` for `undefined`, `some []` for `"0x"`),
and the RPC provider by a transition function `apply` giving, for a
state and a transaction (`to`, `data`), the transaction hash and the
post-confirmation state (`sendTransaction` followed by
`waitForTransactionReceipt`).  `deployViaCreate2` additionally returns
the number of state-changing transactions it submitted, and `throw new
Error(...)` is modelled by `Except.error` carrying the data interpolated
into the message. -/

structure Chain where
  code : List Nat → Option (List Nat)

structure Rpc where
  apply : Chain → List Nat → List Nat → Nat × Chain

/-- Model of `isContractDeployed`: the reported code is defined, not `"0x"`, and
longer than the `0x` prefix — i.e. a non-empty byte string. -/
def isContractDeployed (chain : Chain) (address : List Nat) : Bool :=
  match chain.code address with
  | none => false
  | some code => !code.isEmpty

/-- Model of `isDeployerAvailable`: Arachnid's proxy has code on this chain. -/
def isDeployerAvailable (chain : Chain) : Bool :=
  isContractDeployed chain DETERMINISTIC_DEPLOYER

/-- Model of `buildDeploymentData(salt, initCode)`: strip the `0x` prefixes and
concatenate — 32 salt bytes directly followed by the init code. -/
def buildDeploymentData (salt initCode : List Nat) : List Nat :=
  salt ++ initCode

structure Create2Result where
  address : List Nat
  txHash : Option Nat
  alreadyDeployed : Bool
deriving DecidableEq, Repr

inductive DeployError where
  /-- Model of `encodePacked` threw on malformed deployer/salt widths. -/
  | invalidArguments
  /-- Error "Deterministic deployer not available at 0x4e59… on this chain." -/
  | deployerUnavailable
  /-- Error "Deployment transaction succeeded but contract not found at
  expected address …. Transaction: …". -/
  | contractNotFoundAfterDeploy (expectedAddress : List Nat) (txHash : Nat)
deriving DecidableEq, Repr

/-- Model of `deployViaCreate2({walletClient, publicClient, initCode, salt})` from
`scripts/utils/create2.js`.  Returns the result together with the final
chain state and the number of state-changing transactions submitted. -/
def deployViaCreate2 (rpc : Rpc) (chain : Chain) (initCode : List Nat)
    (salt : List Nat := DEFAULT_FACTORY_SALT) :
    Except DeployError (Create2Result × Chain × Nat) :=
  match computeCreate2Address DETERMINISTIC_DEPLOYER salt initCode with
  | none => .error .invalidArguments
  | some expectedAddress =>
    if isContractDeployed chain expectedAddress then
      .ok ({ address := expectedAddress, txHash := none, alreadyDeployed := true },
        chain, 0)
    else if !isDeployerAvailable chain then
      .error .deployerUnavailable
    else
      let data := buildDeploymentData salt initCode
      let sent := rpc.apply chain DETERMINISTIC_DEPLOYER data
      if !isContractDeployed sent.2 expectedAddress then
        .error (.contractNotFoundAfterDeploy expectedAddress sent.1)
      else
        .ok ({ address := expectedAddress, txHash := some sent.1,
               alreadyDeployed := false }, sent.2, 1)

/-- Claim **C2**. If bytecode is already present at the predicted CREATE2
address, `deployViaCreate2` returns the predicted address with
`txHash = null` and `alreadyDeployed = true`, leaving the chain unchanged
and submitting zero state-changing transactions; consequently, rerunning
the routine on the state left by any successful call (same salt, same
init code) is exactly such a no-op — never a duplicate deployment and
never an error. -/
theorem deployViaCreate2_idempotent (rpc : Rpc) (chain : Chain)
    (initCode salt addr : List Nat)
    (haddr : computeCreate2Address DETERMINISTIC_DEPLOYER salt initCode = some addr) :
    (isContractDeployed chain addr = true →
      deployViaCreate2 rpc chain initCode salt =
        .ok ({ address := addr, txHash := none, alreadyDeployed := true }, chain, 0))
    ∧ (∀ r c n, deployViaCreate2 rpc chain initCode salt = .ok (r, c, n) →
        deployViaCreate2 rpc c initCode salt =
          .ok ({ address := r.address, txHash := none, alreadyDeployed := true },
            c, 0)) := by
  constructor
  · intro hdep
    simp [deployViaCreate2, haddr, hdep]
  · intro r c n hrun
    rw [deployViaCreate2, haddr] at hrun ⊢
    by_cases h1 : isContractDeployed chain addr = true
    · simp [h1] at hrun
      obtain ⟨hr, hc, -⟩ := hrun
      simp [← hc, h1, ← hr]
    · simp [h1] at hrun
      by_cases h2 : isDeployerAvailable chain = true
      · simp [h2] at hrun
        by_cases h3 :
            isContractDeployed (rpc.apply chain DETERMINISTIC_DEPLOYER
              (buildDeploymentData salt initCode)).2 addr = true
        · simp [h3] at hrun
          obtain ⟨hr, hc, -⟩ := hrun
          simp [← hc, h3, ← hr]
        · simp [h3] at hrun
      · simp [h2] at hrun

/-- A 32-byte all-zero salt, used by the witnesses below. -/
def saltZero : List Nat := List.replicate 32 0

/-- The CREATE2 address of init code `[0x00]` under `saltZero` and the
deterministic deployer (checked against `computeCreate2Address` by the
kernel in the witnesses). -/
def addrZeroSalt : List Nat :=
  [36, 196, 253, 45, 177, 207, 76, 177, 174, 198, 81, 204, 14, 6, 10, 0, 212, 0, 231, 132]

/-- A chain reporting bytecode at every address. -/
def chainAllCode : Chain := { code := fun _ => some [0x60] }

/-- A chain reporting no bytecode anywhere. -/
def chainNoCode : Chain := { code := fun _ => none }

/-- An RPC whose transactions leave the chain state unchanged. -/
def rpcInert : Rpc := { apply := fun c _ _ => (0, c) }

/-- Witness for C2: on a chain that already has code at the predicted
address, the deployer returns `alreadyDeployed = true`, no transaction
hash, the unchanged chain, and a zero transaction count. -/
theorem deployViaCreate2_idempotent_witness :
    deployViaCreate2 rpcInert chainAllCode [0] saltZero =
      .ok ({ address := addrZeroSalt, txHash := none, alreadyDeployed := true },
        chainAllCode, 0) :=
  (deployViaCreate2_idempotent rpcInert chainAllCode [0] saltZero addrZeroSalt
    (by decide)).1 rfl

/-- Claim **C7**. When no bytecode is present at the predicted address,
`deployViaCreate2` throws if the deterministic-deployment proxy has no
code on the chain; otherwise it submits the transaction and, after
confirmation, throws if bytecode is still absent at the predicted
address; and in the remaining case it returns the predicted address, the
transaction hash, and `alreadyDeployed = false`. -/
theorem deployViaCreate2_error_paths (rpc : Rpc) (chain : Chain)
    (initCode salt addr : List Nat)
    (haddr : computeCreate2Address DETERMINISTIC_DEPLOYER salt initCode = some addr)
    (hnot : isContractDeployed chain addr = false) :
    (isDeployerAvailable chain = false →
      deployViaCreate2 rpc chain initCode salt = .error .deployerUnavailable)
    ∧ (∀ tx c, isDeployerAvailable chain = true →
        rpc.apply chain DETERMINISTIC_DEPLOYER (buildDeploymentData salt initCode) =
          (tx, c) →
        (isContractDeployed c addr = false →
          deployViaCreate2 rpc chain initCode salt =
            .error (.contractNotFoundAfterDeploy addr tx))
        ∧ (isContractDeployed c addr = true →
          deployViaCreate2 rpc chain initCode salt =
            .ok ({ address := addr, txHash := some tx, alreadyDeployed := false },
              c, 1))) := by
  refine ⟨fun hun => ?_, fun tx c hav hsent => ⟨fun habs => ?_, fun hpres => ?_⟩⟩ <;>
    simp_all [deployViaCreate2]

/-- Witness for C7: on a chain with no code anywhere the deployer fails
with the proxy-unavailable error. -/
theorem deployViaCreate2_error_paths_witness :
    deployViaCreate2 rpcInert chainNoCode [0] saltZero = .error .deployerUnavailable :=
  (deployViaCreate2_error_paths rpcInert chainNoCode [0] saltZero addrZeroSalt
    (by decide) rfl).1 rfl

/-! ## Deployment record store (`scripts/utils/deployment-record.js`)

JavaScript values appearing in a deployment record are modelled by the
mutual inductive family `JsValue`/`JsList`/`JsFields` (numbers, strings,
booleans, `null`, BigInt values, arrays, objects).  A file on disk is
modelled by the JSON tree it contains: `JSON.stringify`/`JSON.parse` of
the JavaScript runtime round-trip such trees exactly (big integers never
appear as JSON numerals here, because the writer's replacer turns every
BigInt into its decimal string *before* textual encoding — that replacer,
`stringifyWithBigInt`, is this repository's code and is modelled
exactly).  The filesystem is an association list from paths to stored
trees; a later write to the same path shadows an earlier one. -/

mutual
inductive JsValue where
  | null
  | bool (b : Bool)
  | num (n : Int)
  | str (s : String)
  | bigint (n : Int)
  | arr (xs : JsList)
  | obj (fields : JsFields)
deriving DecidableEq, Repr

inductive JsList where
  | nil
  | cons (hd : JsValue) (tl : JsList)
deriving DecidableEq, Repr

inductive JsFields where
  | nil
  | cons (key : String) (val : JsValue) (tl : JsFields)
deriving DecidableEq, Repr
end

/-- Property lookup on an object's fields (object literals in the scripts
have unique keys). -/
def JsFields.lookup : JsFields → String → Option JsValue
  | .nil, _ => none
  | .cons k v tl, key => if k = key then some v else tl.lookup key

/-- Model of `value.key` property access: `none` models JavaScript `undefined`. -/
def getField : JsValue → String → Option JsValue
  | .obj fields, key => fields.lookup key
  | _, _ => none

/-- Model of `value?.k1?.k2` optional-chained access. -/
def getPath2 (v : JsValue) (k1 k2 : String) : Option JsValue :=
  (getField v k1).bind fun w => getField w k2

/-- JavaScript truthiness of a value. -/
def truthy : JsValue → Bool
  | .null => false
  | .bool b => b
  | .num n => n != 0
  | .str s => s != ""
  | .bigint n => n != 0
  | .arr _ => true
  | .obj _ => true

/-- Truthiness of a possibly-`undefined` value. -/
def optTruthy : Option JsValue → Bool
  | none => false
  | some v => truthy v

/-- String interpolation `${v}` of the values that reach the path
templates (strings and numbers in every record the scripts build). -/
def jsToString : JsValue → String
  | .str s => s
  | .num n => toString n
  | .bigint n => toString n
  | .bool b => if b then "true" else "false"
  | .null => "null"
  | .arr _ => ""
  | .obj _ => "[object Object]"

mutual
/-- The value stored by
`JSON.stringify(value, (_key, v) => typeof v === "bigint" ? v.toString() : v, 2)`
once parsed back: every BigInt replaced by its decimal string, everything
else kept (the textual layer of `JSON.stringify`/`JSON.parse` round-trips
the remaining tree exactly). -/
def stringifyWithBigInt : JsValue → JsValue
  | .null => .null
  | .bool b => .bool b
  | .num n => .num n
  | .str s => .str s
  | .bigint n => .str (toString n)
  | .arr xs => .arr (stringifyWithBigIntList xs)
  | .obj fs => .obj (stringifyWithBigIntFields fs)

def stringifyWithBigIntList : JsList → JsList
  | .nil => .nil
  | .cons v tl => .cons (stringifyWithBigInt v) (stringifyWithBigIntList tl)

def stringifyWithBigIntFields : JsFields → JsFields
  | .nil => .nil
  | .cons k v tl => .cons k (stringifyWithBigInt v) (stringifyWithBigIntFields tl)
end

mutual
/-- Checks that the value contains no BigInt anywhere. -/
def bigintFree : JsValue → Bool
  | .null => true
  | .bool _ => true
  | .num _ => true
  | .str _ => true
  | .bigint _ => false
  | .arr xs => bigintFreeList xs
  | .obj fs => bigintFreeFields fs

def bigintFreeList : JsList → Bool
  | .nil => true
  | .cons v tl => bigintFree v && bigintFreeList tl

def bigintFreeFields : JsFields → Bool
  | .nil => true
  | .cons _ v tl => bigintFree v && bigintFreeFields tl
end

/-- The filesystem: newest write first, per path. -/
abbrev Fs : Type := List (String × JsValue)

instance exceptDecEq {ε α : Type} [DecidableEq ε] [DecidableEq α] :
    DecidableEq (Except ε α) := fun x y =>
  match x, y with
  | .ok a, .ok b =>
    if h : a = b then isTrue (by rw [h]) else isFalse fun hc => h (Except.ok.inj hc)
  | .error a, .error b =>
    if h : a = b then isTrue (by rw [h]) else isFalse fun hc => h (Except.error.inj hc)
  | .ok _, .error _ => isFalse fun hc => Except.noConfusion hc
  | .error _, .ok _ => isFalse fun hc => Except.noConfusion hc

def fsRead (fs : Fs) (path : String) : Option JsValue :=
  match fs with
  | [] => none
  | (p, v) :: tl => if p = path then some v else fsRead tl path

def fsWrite (fs : Fs) (path : String) (v : JsValue) : Fs := (path, v) :: fs

def DEPLOYMENT_SCHEMA_VERSION : Int := 1

/-- Path `deployments/<network>.latest.json` (relative to the working
directory, as `path.join(process.cwd(), "deployments")` is). -/
def getLatestDeploymentPath (networkName : JsValue) : String :=
  "deployments/" ++ jsToString networkName ++ ".latest.json"

/-- Path `deployments/<network>-<chainId>-<sanitized timestamp>.json`, the
timestamp with every `":"` replaced by `"-"`. -/
def getTimestampedDeploymentPath (networkName chainId : JsValue)
    (isoTimestamp : String) : String :=
  let safeTs := String.mk (isoTimestamp.data.map fun c => if c = ':' then '-' else c)
  "deployments/" ++ jsToString networkName ++ "-" ++ jsToString chainId ++ "-" ++
    safeTs ++ ".json"

/-- Model of `writeDeploymentRecord(record)`: validate `network.name` and
`network.chainId`, serialize once with the BigInt replacer, and write the
same serialized value to the latest path and to the timestamped history
path.  A missing or non-string `createdAt` makes `replaceAll` throw a
`TypeError`, modelled by the last error case. -/
def writeDeploymentRecord (fs : Fs) (record : JsValue) :
    Except String (Fs × String × String) :=
  if !optTruthy (getPath2 record "network" "name") then
    .error "Deployment record missing network.name"
  else if !optTruthy (getPath2 record "network" "chainId") then
    .error "Deployment record missing network.chainId"
  else
    match getField record "createdAt" with
    | some (.str createdAt) =>
      let json := stringifyWithBigInt record
      let latestPath :=
        getLatestDeploymentPath ((getPath2 record "network" "name").getD .null)
      let timestampedPath :=
        getTimestampedDeploymentPath
          ((getPath2 record "network" "name").getD .null)
          ((getPath2 record "network" "chainId").getD .null) createdAt
      .ok (fsWrite (fsWrite fs latestPath json) timestampedPath json,
        latestPath, timestampedPath)
    | _ => .error "TypeError: isoTimestamp.replaceAll is not a function"

/-- Strict equality `record.schemaVersion !== DEPLOYMENT_SCHEMA_VERSION`:
only the JavaScript *number* `1` matches (a string `"1"`, a BigInt `1n`,
or a missing field do not). -/
def schemaVersionMatches : Option JsValue → Bool
  | some (.num n) => n == DEPLOYMENT_SCHEMA_VERSION
  | _ => false

/-- Model of `readDeploymentRecord(filePath)`: missing file, schema-version
mismatch and missing `factory.address` are explicit errors; otherwise the
parsed record is returned unchanged. -/
def readDeploymentRecord (fs : Fs) (filePath : String) : Except String JsValue :=
  match fsRead fs filePath with
  | none => .error ("Deployment record not found: " ++ filePath)
  | some record =>
    if !schemaVersionMatches (getField record "schemaVersion") then
      .error ("Unsupported deployment record schemaVersion=" ++
        jsToString ((getField record "schemaVersion").getD .null) ++ ". Expected 1.")
    else if !optTruthy (getPath2 record "factory" "address") then
      .error "Deployment record missing factory.address"
    else .ok record

theorem lookup_stringifyFields : ∀ (fs : JsFields) (k : String),
    (stringifyWithBigIntFields fs).lookup k = (fs.lookup k).map stringifyWithBigInt
  | .nil, _ => rfl
  | .cons key v tl, k => by
    rw [stringifyWithBigIntFields]
    by_cases h : key = k <;> simp [JsFields.lookup, h, lookup_stringifyFields tl k]

theorem getField_stringify (r : JsValue) (k : String) :
    getField (stringifyWithBigInt r) k = (getField r k).map stringifyWithBigInt := by
  cases r <;> simp [getField, stringifyWithBigInt, lookup_stringifyFields]

theorem getPath2_stringify (r : JsValue) (k1 k2 : String) :
    getPath2 (stringifyWithBigInt r) k1 k2 =
      (getPath2 r k1 k2).map stringifyWithBigInt := by
  rw [getPath2, getPath2, getField_stringify]
  cases getField r k1 <;> simp [getField_stringify]

mutual
theorem stringify_id_of_bigintFree :
    ∀ v : JsValue, bigintFree v = true → stringifyWithBigInt v = v
  | .null, _ => rfl
  | .bool _, _ => rfl
  | .num _, _ => rfl
  | .str _, _ => rfl
  | .bigint _, h => by simp [bigintFree] at h
  | .arr xs, h => by
    rw [stringifyWithBigInt,
      stringifyList_id_of_bigintFree xs (by simpa [bigintFree] using h)]
  | .obj fs, h => by
    rw [stringifyWithBigInt,
      stringifyFields_id_of_bigintFree fs (by simpa [bigintFree] using h)]

theorem stringifyList_id_of_bigintFree :
    ∀ xs : JsList, bigintFreeList xs = true → stringifyWithBigIntList xs = xs
  | .nil, _ => rfl
  | .cons v tl, h => by
    rw [bigintFreeList, Bool.and_eq_true] at h
    rw [stringifyWithBigIntList, stringify_id_of_bigintFree v h.1,
      stringifyList_id_of_bigintFree tl h.2]

theorem stringifyFields_id_of_bigintFree :
    ∀ fs : JsFields, bigintFreeFields fs = true → stringifyWithBigIntFields fs = fs
  | .nil, _ => rfl
  | .cons k v tl, h => by
    rw [bigintFreeFields, Bool.and_eq_true] at h
    rw [stringifyWithBigIntFields, stringify_id_of_bigintFree v h.1,
      stringifyFields_id_of_bigintFree tl h.2]
end

/-- Claim **C5**. `readDeploymentRecord` returns a parsed record exactly when
the file exists, the record's `schemaVersion` is strictly equal to the
single supported constant (the number `1`), and `factory.address` is
present (a truthy, i.e. non-empty, value); the record returned is the
stored one, unchanged.  Every other case is an explicit `Except.error`
with a descriptive message — the function has no silent partial-read
outcome. -/
theorem readDeploymentRecord_ok_iff (fs : Fs) (filePath : String) (record : JsValue) :
    readDeploymentRecord fs filePath = .ok record ↔
      (fsRead fs filePath = some record ∧
        schemaVersionMatches (getField record "schemaVersion") = true ∧
        optTruthy (getPath2 record "factory" "address") = true) := by
  rw [readDeploymentRecord]
  cases h : fsRead fs filePath with
  | none => simp
  | some r =>
    constructor
    · intro hok
      by_cases h1 : schemaVersionMatches (getField r "schemaVersion") = true
      · by_cases h2 : optTruthy (getPath2 r "factory" "address") = true
        · simp only [h1, h2, Bool.not_true, Bool.false_eq_true, if_false,
            reduceIte] at hok
          obtain rfl := Except.ok.inj hok
          exact ⟨rfl, h1, h2⟩
        · simp [h1, h2] at hok
      · simp [h1] at hok
    · rintro ⟨hr, h1, h2⟩
      obtain rfl := Option.some.inj hr
      simp [h1, h2]

/-- Claim **C3 (amended)**. Writing a record that carries the supported schema
version, a non-empty network name, a non-zero numeric chain id, a string
timestamp and a non-empty factory address stores one identical serialized
JSON value at both the latest path and the timestamped history path, and
`readDeploymentRecord` on either path succeeds and returns that value:
the written record with every BigInt replaced by its exact decimal string
(no precision loss), and equal to the original record whenever the
record contains no BigInt. -/
theorem writeDeploymentRecord_roundTrip (fs : Fs) (record : JsValue)
    (name ts addr : String) (chainId : Int)
    (hname : getPath2 record "network" "name" = some (.str name))
    (hname' : name ≠ "")
    (hcid : getPath2 record "network" "chainId" = some (.num chainId))
    (hcid' : chainId ≠ 0)
    (hts : getField record "createdAt" = some (.str ts))
    (hsv : getField record "schemaVersion" = some (.num 1))
    (haddr : getPath2 record "factory" "address" = some (.str addr))
    (haddr' : addr ≠ "") :
    ∃ fsOut latestPath historyPath,
      writeDeploymentRecord fs record = .ok (fsOut, latestPath, historyPath) ∧
      fsRead fsOut latestPath = some (stringifyWithBigInt record) ∧
      fsRead fsOut historyPath = some (stringifyWithBigInt record) ∧
      readDeploymentRecord fsOut latestPath = .ok (stringifyWithBigInt record) ∧
      readDeploymentRecord fsOut historyPath = .ok (stringifyWithBigInt record) ∧
      (bigintFree record = true → stringifyWithBigInt record = record) := by
  have htr : optTruthy (getPath2 record "network" "name") = true := by
    simp [hname, optTruthy, truthy, hname']
  have htr2 : optTruthy (getPath2 record "network" "chainId") = true := by
    simp [hcid, optTruthy, truthy, hcid']
  have hv : schemaVersionMatches
      (getField (stringifyWithBigInt record) "schemaVersion") = true := by
    rw [getField_stringify, hsv]
    rfl
  have ha : optTruthy (getPath2 (stringifyWithBigInt record) "factory" "address")
      = true := by
    rw [getPath2_stringify, haddr]
    simp [optTruthy, truthy, stringifyWithBigInt, haddr']
  have hw : writeDeploymentRecord fs record =
      .ok (fsWrite
          (fsWrite fs (getLatestDeploymentPath (.str name)) (stringifyWithBigInt record))
          (getTimestampedDeploymentPath (.str name) (.num chainId) ts)
          (stringifyWithBigInt record),
        getLatestDeploymentPath (.str name),
        getTimestampedDeploymentPath (.str name) (.num chainId) ts) := by
    rw [writeDeploymentRecord]
    simp only [htr, htr2, hts, hname, hcid, Option.getD_some, Bool.not_true,
      Bool.false_eq_true, if_false]
    simp [optTruthy, truthy, hname', hcid']
  have hlat : fsRead
      (fsWrite
        (fsWrite fs (getLatestDeploymentPath (.str name)) (stringifyWithBigInt record))
        (getTimestampedDeploymentPath (.str name) (.num chainId) ts)
        (stringifyWithBigInt record))
      (getLatestDeploymentPath (.str name)) = some (stringifyWithBigInt record) := by
    simp only [fsWrite, fsRead]
    split
    · rfl
    · simp
  have hhist : fsRead
      (fsWrite
        (fsWrite fs (getLatestDeploymentPath (.str name)) (stringifyWithBigInt record))
        (getTimestampedDeploymentPath (.str name) (.num chainId) ts)
        (stringifyWithBigInt record))
      (getTimestampedDeploymentPath (.str name) (.num chainId) ts) =
      some (stringifyWithBigInt record) := by
    simp only [fsWrite, fsRead]
    simp
  refine ⟨_, _, _, hw, hlat, hhist, ?_, ?_, fun h => stringify_id_of_bigintFree record h⟩
  · simp [readDeploymentRecord, hlat, hv, ha]
  · simp [readDeploymentRecord, hhist, hv, ha]

/-- A concrete deployment record of the shape the flow scripts build
(`scripts/flow/deploy-and-create.js`): schema version 1, network
`sepolia`/11155111, a factory address, and a `dao.config` carrying the
BigInt total supply `10^24` (`parseEther("1000000")`). -/
def recordBig : JsValue :=
  .obj (.cons "schemaVersion" (.num 1)
    (.cons "createdAt" (.str "2026-01-01T00:00:00.000Z")
      (.cons "network"
        (.obj (.cons "name" (.str "sepolia")
          (.cons "chainId" (.num 11155111) .nil)))
        (.cons "factory"
          (.obj (.cons "address"
            (.str "0x1111111111111111111111111111111111111111") .nil))
          (.cons "dao"
            (.obj (.cons "config"
              (.obj (.cons "totalSupply" (.bigint (10 ^ 24)) .nil)) .nil))
            .nil)))))

/-- The serialized form of `recordBig`: the BigInt replaced by its
decimal string. -/
def recordBigStored : JsValue := stringifyWithBigInt recordBig

def recordBigLatest : String := "deployments/sepolia.latest.json"

def recordBigHistory : String :=
  "deployments/sepolia-11155111-2026-01-01T00-00-00.000Z.json"

def recordBigFs : Fs :=
  [(recordBigHistory, recordBigStored), (recordBigLatest, recordBigStored)]

/-- Claim **C3 counterexample**. Writing `recordBig` succeeds and stores the
same serialized value at both paths, and reading either path succeeds —
but the record read back is *not* equal to the record that was written:
the specified field `dao.config.totalSupply` was the BigInt `10^24` in
the written record and comes back as the decimal string
`"1000000000000000000000000"` (`JSON.parse` cannot produce a BigInt), so
the round trip is not field-for-field equality on bigint values. -/
theorem writeDeploymentRecord_roundTrip_counterexample :
    writeDeploymentRecord [] recordBig =
      .ok (recordBigFs, recordBigLatest, recordBigHistory) ∧
    readDeploymentRecord recordBigFs recordBigLatest = .ok recordBigStored ∧
    readDeploymentRecord recordBigFs recordBigLatest ≠ .ok recordBig ∧
    recordBigStored ≠ recordBig ∧
    (getField recordBig "dao").bind
        (fun d => getPath2 d "config" "totalSupply") = some (.bigint (10 ^ 24)) ∧
    (getField recordBigStored "dao").bind
        (fun d => getPath2 d "config" "totalSupply") =
      some (.str "1000000000000000000000000") := by
  refine ⟨by decide, by decide, ?_, by decide, by decide, by decide⟩
  intro h
  have hs : readDeploymentRecord recordBigFs recordBigLatest = .ok recordBigStored := by
    decide
  exact absurd (Except.ok.inj (hs.symm.trans h)) (by decide)

/-! ## Token distribution (`contracts/DAOFactory.sol`)

`createDAO` deploys the token clone and calls
`DAOToken.initialize(tokenName, tokenSymbol, totalSupply, address(this))`,
which mints the full supply to the factory; `_distributeTokens` then
transfers the creator's share to `msg.sender` and the remainder to the
timelock.  ERC-20 balances are a map from 20-byte addresses to `Nat`;
OpenZeppelin's `transfer` reverts on insufficient balance (`none`).
`uint256` arithmetic is exact here: with `CREATOR_ALLOCATION_PERCENT = 1`
every intermediate value is at most `totalSupply < 2^256`, so Solidity
0.8's checked arithmetic never wraps or reverts. -/

/-- Model of `CREATOR_ALLOCATION_PERCENT = 1` (1% to the creator). -/
def CREATOR_ALLOCATION_PERCENT : Nat := 1

def updateBal (bal : List Nat → Nat) (a : List Nat) (v : Nat) : List Nat → Nat :=
  fun x => if x = a then v else bal x

/-- OpenZeppelin ERC-20 `transfer`: debit `src`, credit `dst`, revert when
the balance is insufficient. -/
def erc20Transfer (bal : List Nat → Nat) (src dst : List Nat) (amount : Nat) :
    Option (List Nat → Nat) :=
  if bal src < amount then none
  else
    let b1 := updateBal bal src (bal src - amount)
    some (updateBal b1 dst (b1 dst + amount))

/-- Model of `_distributeTokens(daoToken, timelock, totalSupply)`: 1% (integer
floor division) to the creator (`msg.sender`), the remainder to the
timelock, both transfers sent from the factory's balance. -/
def distributeTokens (bal : List Nat → Nat) (factory creator timelock : List Nat)
    (totalSupply : Nat) : Option (List Nat → Nat) :=
  let creatorAmount := totalSupply * CREATOR_ALLOCATION_PERCENT / 100
  let treasuryAmount := totalSupply - creatorAmount
  (erc20Transfer bal factory creator creatorAmount).bind fun b1 =>
    erc20Transfer b1 factory timelock treasuryAmount

/-- The balances after `createDAO`'s mint-to-factory followed by
`_distributeTokens`. -/
def daoTokenDistribution (factory creator timelock : List Nat) (totalSupply : Nat) :
    Option (List Nat → Nat) :=
  distributeTokens (updateBal (fun _ => 0) factory totalSupply)
    factory creator timelock totalSupply

/-- Model of `expectedCreatorAmount` of the driver's `verifyTokenDistribution`
(`scripts/deploy/dao.js`): `totalSupply * CREATOR_ALLOCATION_PERCENT / 100n`. -/
def expectedCreatorAmount (totalSupply : Nat) : Nat :=
  totalSupply * CREATOR_ALLOCATION_PERCENT / 100

/-- Model of `expectedTreasuryAmount = totalSupply - expectedCreatorAmount`. -/
def expectedTreasuryAmount (totalSupply : Nat) : Nat :=
  totalSupply - expectedCreatorAmount totalSupply

/-- Claim **C4**. After a successful DAO creation with total supply `S ≥ 1`
(distinct factory, creator and timelock addresses), the creator's balance
is `⌊S * CREATOR_ALLOCATION_PERCENT / 100⌋`, the treasury (timelock)
balance is `S` minus the creator balance, the two sum to `S` exactly,
and they equal the amounts the deployment driver checks for. -/
theorem distributeTokens_split (factory creator timelock : List Nat) (S : Nat)
    (hS : 1 ≤ S) (hcf : creator ≠ factory) (htf : timelock ≠ factory)
    (hct : creator ≠ timelock) :
    (daoTokenDistribution factory creator timelock S).map
        (fun bal => (bal creator, bal timelock)) =
      some (S * CREATOR_ALLOCATION_PERCENT / 100,
        S - S * CREATOR_ALLOCATION_PERCENT / 100) ∧
    S * CREATOR_ALLOCATION_PERCENT / 100 +
      (S - S * CREATOR_ALLOCATION_PERCENT / 100) = S ∧
    (daoTokenDistribution factory creator timelock S).map
        (fun bal => (bal creator, bal timelock)) =
      some (expectedCreatorAmount S, expectedTreasuryAmount S) := by
  have hle : S * CREATOR_ALLOCATION_PERCENT / 100 ≤ S := by
    simpa [CREATOR_ALLOCATION_PERCENT] using Nat.div_le_self S 100
  have hmain : (daoTokenDistribution factory creator timelock S).map
      (fun bal => (bal creator, bal timelock)) =
      some (S * CREATOR_ALLOCATION_PERCENT / 100,
        S - S * CREATOR_ALLOCATION_PERCENT / 100) := by
    simp [daoTokenDistribution, distributeTokens, erc20Transfer, updateBal,
      hcf, htf, hct, Ne.symm hcf, Ne.symm htf, Ne.symm hct, Nat.not_lt.mpr hle]
  exact ⟨hmain, by omega, hmain.trans (by
    simp [expectedCreatorAmount, expectedTreasuryAmount])⟩

/-- Witness for C4 at `S = 1,000,000`: the creator receives 10,000 units
and the treasury 990,000, summing to the full supply. -/
theorem distributeTokens_split_witness :
    (daoTokenDistribution [0] [1] [2] 1000000).map
        (fun bal => (bal [1], bal [2])) = some (10000, 990000) ∧
    (10000 : Nat) + 990000 = 1000000 := by
  obtain ⟨h1, -, -⟩ := distributeTokens_split [0] [1] [2] 1000000
    (by decide) (by decide) (by decide) (by decide)
  exact ⟨h1.trans (by decide), by decide⟩

/-! ## Timelock role wiring (`contracts/DAOFactory.sol`, `DAOTimelock`)

`DAOTimelock.initialize(minDelay_, admin_)` calls OpenZeppelin's
`__TimelockController_init(minDelay_, proposers = [], executors = [address(0)], admin_)`.
The OpenZeppelin v5 library (the spec's external collaborator) behaves as
follows, modelled here from its definition: the initializer grants
`DEFAULT_ADMIN_ROLE` to the timelock itself, grants it to `admin_` when
`admin_` is not the zero address, grants `PROPOSER_ROLE` and
`CANCELLER_ROLE` to every listed proposer, and grants `EXECUTOR_ROLE` to
every listed executor.  `grantRole`/`revokeRole` are the external
AccessControl entry points, restricted to holders of the target role's
admin role — `DEFAULT_ADMIN_ROLE` for all four roles here, since
`_setRoleAdmin` is never called.  The role constants are the real ones:
`keccak256` of the role name, and the all-zero word for
`DEFAULT_ADMIN_ROLE`. -/

def zeroAddress : List Nat := List.replicate 20 0

def DEFAULT_ADMIN_ROLE : List Nat := List.replicate 32 0

def PROPOSER_ROLE : List Nat := keccak256 (strBytes "PROPOSER_ROLE")

def EXECUTOR_ROLE : List Nat := keccak256 (strBytes "EXECUTOR_ROLE")

def CANCELLER_ROLE : List Nat := keccak256 (strBytes "CANCELLER_ROLE")

/-- Model of `hasRole`: role → account → held. -/
def RoleState : Type := List Nat → List Nat → Bool

def setRole (st : RoleState) (role account : List Nat) (v : Bool) : RoleState :=
  fun r a => if r = role ∧ a = account then v else st r a

/-- Internal `_grantRole` (no caller check; used by the initializer). -/
def grantRoleInternal (st : RoleState) (role account : List Nat) : RoleState :=
  setRole st role account true

/-- External `grantRole`, guarded by `onlyRole(getRoleAdmin(role))`,
which is `DEFAULT_ADMIN_ROLE` for every role involved here. -/
def grantRole (st : RoleState) (caller role account : List Nat) : Option RoleState :=
  if st DEFAULT_ADMIN_ROLE caller then some (setRole st role account true) else none

/-- External `revokeRole`, same guard. -/
def revokeRole (st : RoleState) (caller role account : List Nat) : Option RoleState :=
  if st DEFAULT_ADMIN_ROLE caller then some (setRole st role account false) else none

/-- Model of `__TimelockController_init(minDelay, proposers, executors, admin)`:
self-administration, optional admin, proposer and executor grants. -/
def timelockControllerInit (timelockSelf : List Nat)
    (proposers executors : List (List Nat)) (admin : List Nat) : RoleState :=
  let st0 : RoleState := fun _ _ => false
  let st1 := grantRoleInternal st0 DEFAULT_ADMIN_ROLE timelockSelf
  let st2 := if admin ≠ zeroAddress
    then grantRoleInternal st1 DEFAULT_ADMIN_ROLE admin else st1
  let st3 := proposers.foldl (fun st p =>
    grantRoleInternal (grantRoleInternal st PROPOSER_ROLE p) CANCELLER_ROLE p) st2
  executors.foldl (fun st e => grantRoleInternal st EXECUTOR_ROLE e) st3

/-- Model of `DAOTimelock.initialize(minDelay_, admin_)`: empty proposers,
executors `[address(0)]` (anyone can execute). -/
def daoTimelockInitialize (minDelay : Nat) (timelockSelf admin : List Nat) :
    RoleState :=
  timelockControllerInit timelockSelf [] [zeroAddress] admin

/-- Model of `_configureTimelock(daoTimelock, governor)`, called by the factory
(`msg.sender` of the three role calls): grant `PROPOSER_ROLE` and
`CANCELLER_ROLE` to the governor, revoke `DEFAULT_ADMIN_ROLE` from the
factory itself. -/
def configureTimelock (st : RoleState) (factory governor : List Nat) :
    Option RoleState :=
  (grantRole st factory PROPOSER_ROLE governor).bind fun st1 =>
    (grantRole st1 factory CANCELLER_ROLE governor).bind fun st2 =>
      revokeRole st2 factory DEFAULT_ADMIN_ROLE factory

/-- The timelock's role state after `createDAO`: clone initialization
with the factory as initial admin, then `_configureTimelock`. -/
def timelockRolesAfterCreateDAO (minDelay : Nat)
    (timelockSelf factory governor : List Nat) : Option RoleState :=
  configureTimelock (daoTimelockInitialize minDelay timelockSelf factory)
    factory governor

/-- Claim **C10**. After every successful `createDAO` (the factory is a
deployed contract, hence not the zero address), the timelock role state
satisfies: the governor holds `PROPOSER_ROLE` and `CANCELLER_ROLE`, the
zero address holds `EXECUTOR_ROLE` (anyone can execute), and
`DEFAULT_ADMIN_ROLE` has been revoked from the factory. -/
theorem createDAO_timelock_roles (minDelay : Nat)
    (timelockSelf factory governor : List Nat) (hf : factory ≠ zeroAddress) :
    ∃ st, timelockRolesAfterCreateDAO minDelay timelockSelf factory governor =
        some st ∧
      st PROPOSER_ROLE governor = true ∧
      st CANCELLER_ROLE governor = true ∧
      st EXECUTOR_ROLE zeroAddress = true ∧
      st DEFAULT_ADMIN_ROLE factory = false := by
  have hpa : PROPOSER_ROLE ≠ DEFAULT_ADMIN_ROLE := by decide
  have hca : CANCELLER_ROLE ≠ DEFAULT_ADMIN_ROLE := by decide
  have hea : EXECUTOR_ROLE ≠ DEFAULT_ADMIN_ROLE := by decide
  have hpc : PROPOSER_ROLE ≠ CANCELLER_ROLE := by decide
  have hep : EXECUTOR_ROLE ≠ PROPOSER_ROLE := by decide
  have hec : EXECUTOR_ROLE ≠ CANCELLER_ROLE := by decide
  have hadmin : daoTimelockInitialize minDelay timelockSelf factory
      DEFAULT_ADMIN_ROLE factory = true := by
    simp [daoTimelockInitialize, timelockControllerInit, grantRoleInternal,
      setRole, hf, Ne.symm hea]
  have hrun : timelockRolesAfterCreateDAO minDelay timelockSelf factory governor =
      some (setRole (setRole (setRole
          (daoTimelockInitialize minDelay timelockSelf factory)
          PROPOSER_ROLE governor true)
        CANCELLER_ROLE governor true)
        DEFAULT_ADMIN_ROLE factory false) := by
    simp only [timelockRolesAfterCreateDAO, configureTimelock, grantRole,
      revokeRole]
    rw [if_pos hadmin]
    have h1 : setRole (daoTimelockInitialize minDelay timelockSelf factory)
        PROPOSER_ROLE governor true DEFAULT_ADMIN_ROLE factory = true := by
      simp [setRole, Ne.symm hpa, hadmin]
    have h2 : setRole (setRole (daoTimelockInitialize minDelay timelockSelf factory)
          PROPOSER_ROLE governor true) CANCELLER_ROLE governor true
        DEFAULT_ADMIN_ROLE factory = true := by
      simp [setRole, Ne.symm hpa, Ne.symm hca, hadmin]
    simp [h1, h2]
  refine ⟨_, hrun, ?_, ?_, ?_, ?_⟩
  · simp [setRole, hpa, hpc]
  · simp [setRole, hca]
  · simp [setRole, hea, hep, hec, daoTimelockInitialize, timelockControllerInit,
      grantRoleInternal, hf]
  · simp [setRole]

/-- Witness for C10 at concrete distinct addresses. -/
theorem createDAO_timelock_roles_witness :
    ∃ st, timelockRolesAfterCreateDAO 86400 [3] [1] [2] = some st ∧
      st PROPOSER_ROLE [2] = true ∧
      st CANCELLER_ROLE [2] = true ∧
      st EXECUTOR_ROLE zeroAddress = true ∧
      st DEFAULT_ADMIN_ROLE [1] = false :=
  createDAO_timelock_roles 86400 [3] [1] [2] (by decide)

/-! ## Deployment salts (`scripts/utils/create2.js`,
`scripts/deploy/factoryDeterministic.js`)

`factoryDeterministic.js` imports `TOKEN_IMPL_SALT`, `GOVERNOR_IMPL_SALT`
and `TIMELOCK_IMPL_SALT` from `scripts/utils/create2.js` and deploys each
implementation under its own salt, with the factory deployed under
`DEFAULT_FACTORY_SALT`. -/

/-- The shared base label of all deployment salt strings (spec §3,
"Salt"); `DEFAULT_FACTORY_SALT` hashes this label followed by the
factory's tag. -/
def SALT_BASE_LABEL : String := "createDAO_"

/-- Modelled from the spec: `TOKEN_IMPL_SALT` is exported by
`scripts/utils/create2.js` (per the import list of
`scripts/deploy/factoryDeterministic.js`) but its definition is not among
the provided sources; per spec §3 (Salt) it hashes the shared base label
concatenated with the token-implementation tag. -/
def TOKEN_IMPL_SALT : List Nat :=
  keccak256 (strBytes (SALT_BASE_LABEL ++ "DAOToken_Impl_v1_dev"))

/-- Modelled from the spec: `GOVERNOR_IMPL_SALT`, as `TOKEN_IMPL_SALT`
but with the governor-implementation tag. -/
def GOVERNOR_IMPL_SALT : List Nat :=
  keccak256 (strBytes (SALT_BASE_LABEL ++ "DAOGovernor_Impl_v1_dev"))

/-- Modelled from the spec: `TIMELOCK_IMPL_SALT`, as `TOKEN_IMPL_SALT`
but with the timelock-implementation tag. -/
def TIMELOCK_IMPL_SALT : List Nat :=
  keccak256 (strBytes (SALT_BASE_LABEL ++ "DAOTimelock_Impl_v1_dev"))

/-- Claim **C6**. Each deployment salt is the Keccak-256 hash of the shared
base label concatenated with an artifact-specific tag, and the four
salts are pairwise distinct, so the three implementation contracts and
the factory occupy independent CREATE2 address slots for the same
deployer and chain (address independence given distinct salts relies on
Keccak collision resistance, as the spec's "guaranteeing" does). -/
theorem deployment_salts_distinct :
    TOKEN_IMPL_SALT =
      keccak256 (strBytes (SALT_BASE_LABEL ++ "DAOToken_Impl_v1_dev")) ∧
    GOVERNOR_IMPL_SALT =
      keccak256 (strBytes (SALT_BASE_LABEL ++ "DAOGovernor_Impl_v1_dev")) ∧
    TIMELOCK_IMPL_SALT =
      keccak256 (strBytes (SALT_BASE_LABEL ++ "DAOTimelock_Impl_v1_dev")) ∧
    DEFAULT_FACTORY_SALT =
      keccak256 (strBytes (SALT_BASE_LABEL ++ "DAOFactory_v1_dev")) ∧
    TOKEN_IMPL_SALT ≠ GOVERNOR_IMPL_SALT ∧
    TOKEN_IMPL_SALT ≠ TIMELOCK_IMPL_SALT ∧
    TOKEN_IMPL_SALT ≠ DEFAULT_FACTORY_SALT ∧
    GOVERNOR_IMPL_SALT ≠ TIMELOCK_IMPL_SALT ∧
    GOVERNOR_IMPL_SALT ≠ DEFAULT_FACTORY_SALT ∧
    TIMELOCK_IMPL_SALT ≠ DEFAULT_FACTORY_SALT := by
  have hbase : SALT_BASE_LABEL ++ "DAOFactory_v1_dev" =
      "createDAO_DAOFactory_v1_dev" := by decide
  refine ⟨rfl, rfl, rfl, by rw [hbase]; rfl, ?_, ?_, ?_, ?_, ?_, ?_⟩ <;> decide

/-! ## DAO creation driver fallback (`scripts/deploy/dao.js`)

After the creation transaction confirms, the driver scans the receipt's
logs for a `DAOCreated` event emitted by the factory (other emitters and
undecodable logs are skipped).  If no event is found it falls back to the
factory's storage: `getDAOCount()` and `getDAO(count - 1)`.  The decoded
event's addresses are non-empty hex strings, so the fallback guard
`!token || !timelock || !governor` is exactly "no decoded event". -/

structure DecodedEvent where
  eventName : String
  token : List Nat
  timelock : List Nat
  governor : List Nat
deriving DecidableEq, Repr

structure TxLog where
  address : List Nat
  decoded : Option DecodedEvent
deriving DecidableEq, Repr

structure DAOInfo where
  token : List Nat
  timelock : List Nat
  governor : List Nat
deriving DecidableEq, Repr

/-- The receipt-log scan: skip logs not emitted by the factory and logs
`decodeEventLog` fails on; stop at the first decoded `DAOCreated`. -/
def scanForDAOCreated (factoryAddress : List Nat) : List TxLog → Option DecodedEvent
  | [] => none
  | log :: rest =>
    if log.address ≠ factoryAddress then scanForDAOCreated factoryAddress rest
    else
      match log.decoded with
      | some d =>
        if d.eventName = "DAOCreated" then some d
        else scanForDAOCreated factoryAddress rest
      | none => scanForDAOCreated factoryAddress rest

/-- Address extraction of `createDAO` (`scripts/deploy/dao.js`): event
decode first, then the storage fallback guarded against `daoCount = 0`. -/
def resolveDAOAddresses (factoryAddress : List Nat) (logs : List TxLog)
    (daoCount : Nat) (getDAO : Nat → DAOInfo) : Except String DAOInfo :=
  match scanForDAOCreated factoryAddress logs with
  | some d => .ok { token := d.token, timelock := d.timelock, governor := d.governor }
  | none =>
    if daoCount = 0 then
      .error ("DAO creation tx confirmed but factory DAO count is 0. " ++
        "This is likely due to RPC lag. Please re-run, increase confirmations, or switch RPC.")
    else .ok (getDAO (daoCount - 1))

/-- Claim **C8**. When decoding the confirmed transaction's own logs yields no
`DAOCreated` match, the driver falls back to `getDAOCount()`: a zero
count is a fatal error (never a silent "no DAO created"), and a non-zero
count reads the DAO record at index `count - 1`. -/
theorem createDAO_fallback (factoryAddress : List Nat) (logs : List TxLog)
    (daoCount : Nat) (getDAO : Nat → DAOInfo)
    (hscan : scanForDAOCreated factoryAddress logs = none) :
    (daoCount = 0 →
      resolveDAOAddresses factoryAddress logs daoCount getDAO =
        .error ("DAO creation tx confirmed but factory DAO count is 0. " ++
          "This is likely due to RPC lag. Please re-run, increase confirmations, or switch RPC.")) ∧
    (daoCount ≠ 0 →
      resolveDAOAddresses factoryAddress logs daoCount getDAO =
        .ok (getDAO (daoCount - 1))) := by
  constructor <;> intro h <;> simp [resolveDAOAddresses, hscan, h]

/-- Witness for C8: no factory log in the receipt and a zero count give
the fatal error. -/
theorem createDAO_fallback_witness :
    resolveDAOAddresses [1] [] 0 (fun _ => { token := [], timelock := [], governor := [] }) =
      .error ("DAO creation tx confirmed but factory DAO count is 0. " ++
        "This is likely due to RPC lag. Please re-run, increase confirmations, or switch RPC.") :=
  (createDAO_fallback [1] [] 0 (fun _ => { token := [], timelock := [], governor := [] })
    rfl).1 rfl

/-! ## Verification submitter (`scripts/utils/etherscan.js`,
`scripts/utils/verification-direct.js`)

The block-explorer API is an external HTTP service; its responses are
modelled by the `{status, message, result}` objects the code inspects
(`result` as `Option String`: `none` models an absent or non-string
field).  JavaScript string operations are modelled over ASCII: `s.toLowerCase()`
maps `A`–`Z` down, and `s.includes(pat)` is substring search. -/

structure ApiResponse where
  status : String
  message : String
  result : Option String
deriving DecidableEq, Repr

def toLowerChar (c : Char) : Char :=
  if 'A' ≤ c ∧ c ≤ 'Z' then Char.ofNat (c.toNat + 32) else c

def jsToLower (s : String) : String := String.mk (s.data.map toLowerChar)

def isPrefixList : List Char → List Char → Bool
  | [], _ => true
  | _ :: _, [] => false
  | p :: ps, c :: cs => p == c && isPrefixList ps cs

def hasSubstrAux (pat : List Char) : List Char → Bool
  | [] => isPrefixList pat []
  | c :: cs => isPrefixList pat (c :: cs) || hasSubstrAux pat cs

/-- JavaScript `s.includes(pat)`. -/
def includes (s pat : String) : Bool := hasSubstrAux pat.data s.data

/-- Model of `result.result?.toLowerCase().includes("already verified")`. -/
def optContainsAlreadyVerified : Option String → Bool
  | none => false
  | some s => includes (jsToLower s) "already verified"

/-- JavaScript falsiness of an optional string (`!guid`). -/
def jsFalsyOpt : Option String → Bool
  | none => true
  | some s => s == ""

/-- Model of `result.result || result.message || "Unknown error"`. -/
def firstTruthyMsg (r : Option String) (m : String) : String :=
  match r with
  | some s => if s ≠ "" then s else if m ≠ "" then m else "Unknown error"
  | none => if m ≠ "" then m else "Unknown error"

structure SubmitResult where
  success : Bool
  guid : Option String
  message : String
deriving DecidableEq, Repr

/-- Model of `submitSourceVerification` response handling
(`scripts/utils/etherscan.js`): `status === "1"` returns the GUID for
polling; otherwise an "already verified" result is an immediate success
with no GUID; anything else is a failure. -/
def submitSourceVerification (resp : ApiResponse) : SubmitResult :=
  if resp.status = "1" then
    { success := true, guid := resp.result, message := "Submitted" }
  else if optContainsAlreadyVerified resp.result then
    { success := true, guid := none, message := "Already verified!" }
  else
    { success := false, guid := none,
      message := firstTruthyMsg resp.result resp.message }

def maxStatusChecks : Nat := 10

/-- The status-polling loop of `checkVerificationStatus`, with the polls
performed so far made explicit; `statusResponse n` is the explorer's
response to the `n`-th poll. -/
def checkStatusLoop (statusResponse : Nat → ApiResponse) :
    Nat → Nat → SubmitResult × Nat
  | 0, polls =>
    ({ success := false, guid := none,
       message := "Verification still pending after timeout. Check Etherscan manually." },
     polls)
  | fuel + 1, polls =>
    let resp := statusResponse polls
    let resultText := resp.result.getD ""
    if resultText = "Pass - Verified" then
      ({ success := true, guid := none, message := "Verified successfully!" }, polls + 1)
    else if includes (jsToLower resultText) "already verified" then
      ({ success := true, guid := none, message := "Already verified" }, polls + 1)
    else if includes (jsToLower resultText) "fail" then
      ({ success := false, guid := none, message := resultText }, polls + 1)
    else checkStatusLoop statusResponse fuel (polls + 1)

/-- Model of `checkVerificationStatus`: up to `maxStatusChecks` polls. -/
def checkVerificationStatus (statusResponse : Nat → ApiResponse) :
    SubmitResult × Nat :=
  checkStatusLoop statusResponse maxStatusChecks 0

def LOCAL_NETWORKS : List String :=
  ["hardhat", "localhost", "hardhatMainnet", "hardhatOp"]

def isLocalNetwork (networkName : String) : Bool :=
  LOCAL_NETWORKS.contains networkName

def maxRetries : Nat := 3

/-- The environment of one `verifyWithDirectApi` run: the explorer's
response to each submission attempt and to each status poll (config and
build-info reads are modelled as succeeding; they do not affect the
control flow verified here). -/
structure VerifyEnv where
  submitResponse : Nat → ApiResponse
  statusResponse : Nat → ApiResponse

/-- The submission-attempt loop of `verifyWithDirectApi`
(`scripts/utils/verification-direct.js`), returning the result together
with the total number of status-polling iterations executed. -/
def verifyAttempts (env : VerifyEnv) : Nat → Nat → SubmitResult × Nat
  | 0, _ =>
    ({ success := false, guid := none, message := "Failed after 3 attempts" }, 0)
  | fuel + 1, attempt =>
    let sr := submitSourceVerification (env.submitResponse attempt)
    if sr.success && jsFalsyOpt sr.guid then (sr, 0)
    else if sr.success && !jsFalsyOpt sr.guid then
      checkVerificationStatus env.statusResponse
    else verifyAttempts env fuel (attempt + 1)

/-- Model of `verifyWithDirectApi`: skip on local networks, else up to
`maxRetries` submission attempts. -/
def verifyWithDirectApi (env : VerifyEnv) (networkName : String) :
    SubmitResult × Nat :=
  if isLocalNetwork networkName then
    ({ success := true, guid := none, message := "Skipped on local network" }, 0)
  else verifyAttempts env maxRetries 0

/-- Claim **C9**. If the explorer's response to the submission indicates
"already verified" (a non-`"1"` status whose result text contains the
phrase), `submitSourceVerification` returns success with no GUID, and
`verifyWithDirectApi` returns that success immediately with zero
status-polling iterations executed. -/
theorem alreadyVerified_skips_polling (env : VerifyEnv) (networkName : String)
    (resp : ApiResponse)
    (hresp : env.submitResponse 0 = resp)
    (hstatus : resp.status ≠ "1")
    (halready : optContainsAlreadyVerified resp.result = true)
    (hlocal : isLocalNetwork networkName = false) :
    submitSourceVerification resp =
      { success := true, guid := none, message := "Already verified!" } ∧
    verifyWithDirectApi env networkName =
      ({ success := true, guid := none, message := "Already verified!" }, 0) := by
  have hsub : submitSourceVerification resp =
      { success := true, guid := none, message := "Already verified!" } := by
    simp [submitSourceVerification, hstatus, halready]
  refine ⟨hsub, ?_⟩
  simp [verifyWithDirectApi, hlocal, maxRetries, verifyAttempts, hresp, hsub,
    jsFalsyOpt]

/-- Witness for C9 at a concrete "already verified" response. -/
theorem alreadyVerified_skips_polling_witness :
    submitSourceVerification
        { status := "0", message := "NOTOK",
          result := some "Contract source code already verified" } =
      { success := true, guid := none, message := "Already verified!" } ∧
    verifyWithDirectApi
        { submitResponse := fun _ =>
            { status := "0", message := "NOTOK",
              result := some "Contract source code already verified" },
          statusResponse := fun _ =>
            { status := "1", message := "OK", result := some "Pass - Verified" } }
        "sepolia" =
      ({ success := true, guid := none, message := "Already verified!" }, 0) :=
  alreadyVerified_skips_polling _ "sepolia" _ rfl (by decide) (by decide) (by decide)

/-- Witness for the amended C3 theorem at the concrete record
`recordBig`. -/
theorem writeDeploymentRecord_roundTrip_witness :
    ∃ fsOut latestPath historyPath,
      writeDeploymentRecord [] recordBig = .ok (fsOut, latestPath, historyPath) ∧
      fsRead fsOut latestPath = some (stringifyWithBigInt recordBig) ∧
      fsRead fsOut historyPath = some (stringifyWithBigInt recordBig) ∧
      readDeploymentRecord fsOut latestPath = .ok (stringifyWithBigInt recordBig) ∧
      readDeploymentRecord fsOut historyPath = .ok (stringifyWithBigInt recordBig) ∧
      (bigintFree recordBig = true → stringifyWithBigInt recordBig = recordBig) :=
  writeDeploymentRecord_roundTrip [] recordBig "sepolia" "2026-01-01T00:00:00.000Z"
    "0x1111111111111111111111111111111111111111" 11155111
    (by decide) (by decide) (by decide) (by decide) (by decide) (by decide)
    (by decide) (by decide)

end CreateDAO
